import Mathlib

/-!
Verification of the wake-boost state machine in
`drivers/cpufreq/cpu_wake_boost.c`.

The driver forces each online CPU's minimum frequency to its hardware
maximum for a window after the display turns on, releasing the override
when the window elapses or when the display turns off early.  We embed
the driver's functions (`do_cpu_boost`, `wake_boost`, `wake_unboost`,
`set_wake_boost`, `fb_notifier_callback`, `update_online_cpu_policy`)
as pure functions over an explicit system state, with a small timed
trace semantics for the workqueue (immediate work and the cancelable
delayed unboost timer).
-/

namespace CpuWakeBoost

/-- `enum boost_state` from the source: `NO_BOOST` is the spec's `Idle`,
`UNBOOST` is `Released`, `BOOST` is `Boosted`. -/
inductive BoostState where
  | NO_BOOST
  | UNBOOST
  | BOOST
deriving DecidableEq, Repr

open BoostState

/-- `#define CPUFREQ_ADJUST (0)` (kernel `include/linux/cpufreq.h`). -/
def CPUFREQ_ADJUST : Nat := 0

/-- `#define CPUFREQ_NOTIFY (2)` (kernel `include/linux/cpufreq.h`),
used as a sample non-adjust notifier action. -/
def CPUFREQ_NOTIFY : Nat := 2

/-- `#define NOTIFY_OK 0x0001` (kernel `include/linux/notifier.h`). -/
def NOTIFY_OK : Nat := 1

/-- `#define FB_EARLY_EVENT_BLANK 0x10` (kernel `include/linux/fb.h`). -/
def FB_EARLY_EVENT_BLANK : Nat := 0x10

/-- `#define FB_BLANK_UNBLANK ... = 0` (kernel `include/linux/fb.h`). -/
def FB_BLANK_UNBLANK : Int := 0

/-- `#define FB_BOOST_MS (2000)`: the fixed wake-boost duration in
milliseconds. -/
def FB_BOOST_MS : Nat := 2000

/-- `EINVAL = 22`; `set_wake_boost` returns `-EINVAL` on a parse failure. -/
def EINVAL : Int := 22

/-- The per-core fields of `struct cpufreq_policy` the driver touches:
the current bounds `min`/`max`, the user-configured bounds that a policy
re-evaluation starts from, and the hardware limits `cpuinfo.min_freq` /
`cpuinfo.max_freq`. -/
structure Policy where
  min : Nat
  max : Nat
  user_min : Nat
  user_max : Nat
  cpuinfo_min : Nat
  cpuinfo_max : Nat
deriving DecidableEq, Repr

/-- Result of one invocation of the `do_cpu_boost` notifier callback:
the possibly updated global state, the possibly updated policy, and the
notifier return value. -/
structure CpuBoostResult where
  state : BoostState
  policy : Policy
  ret : Nat
deriving DecidableEq, Repr

/-- `do_cpu_boost` from the source: the cpufreq policy-notifier
callback.  Non-`CPUFREQ_ADJUST` actions return `NOTIFY_OK` untouched;
otherwise `UNBOOST` restores `policy->min` to the hardware minimum and
moves the state to `NO_BOOST`, `BOOST` forces `policy->min` to the
hardware maximum (raising `policy->max` if it fell below), and
`NO_BOOST` does nothing. -/
def do_cpu_boost (state : BoostState) (action : Nat) (policy : Policy) :
    CpuBoostResult :=
  if action ≠ CPUFREQ_ADJUST then
    ⟨state, policy, NOTIFY_OK⟩
  else
    match state with
    | UNBOOST =>
        ⟨NO_BOOST, { policy with min := policy.cpuinfo_min }, NOTIFY_OK⟩
    | BOOST =>
        let p1 := { policy with min := policy.cpuinfo_max }
        let p2 := if p1.max < p1.min then { p1 with max := p1.min } else p1
        ⟨BOOST, p2, NOTIFY_OK⟩
    | NO_BOOST =>
        ⟨NO_BOOST, policy, NOTIFY_OK⟩

/-- The pure bounds adjustment performed by `do_cpu_boost` for a fixed
state on a `CPUFREQ_ADJUST` invocation. -/
def adjustBounds (state : BoostState) (policy : Policy) : Policy :=
  (do_cpu_boost state CPUFREQ_ADJUST policy).policy

/-- The driver's global mutable state together with the workqueue
bookkeeping: the `enum boost_state`, the `wake_boost_time` module
parameter, one policy per currently-online CPU, whether `boost_work`
is queued, and the absolute fire time of the pending delayed
`unboost_work` (`none` when not pending).  Times are kept in the
spec's abstract time-units (milliseconds; `msecs_to_jiffies` is the
kernel's monotone unit conversion). -/
structure Sys where
  state : BoostState
  wake_boost_time : Nat
  policies : List Policy
  boost_pending : Bool
  unboost_deadline : Option Nat
deriving DecidableEq, Repr

/-- Modelled from the spec: `cpufreq_update_policy`, the external
PolicyNotifier's per-core recompute-now entry point, is kernel core
code not part of this repository.  Per the spec, a re-evaluation
invokes the registered bounds-adjustment callback with the current
proposed bounds (the user-configured ones) and stores the adjusted
bounds; the callback invocation is a `CPUFREQ_ADJUST` notification
into `do_cpu_boost`. -/
def cpufreq_update_policy (st : BoostState) (p : Policy) :
    BoostState × Policy :=
  let r := do_cpu_boost st CPUFREQ_ADJUST
      { p with min := p.user_min, max := p.user_max }
  (r.state, r.policy)

/-- One per-CPU step of `update_online_cpu_policy`'s loop, threading
the global state through the synchronous notifier invocations. -/
def policyStep (acc : BoostState × List Policy) (p : Policy) :
    BoostState × List Policy :=
  let r := cpufreq_update_policy acc.1 p
  (r.1, acc.2 ++ [r.2])

/-- `update_online_cpu_policy`: triggers `cpufreq_update_policy` for
each online CPU in turn. -/
def update_online_cpu_policy (s : Sys) : Sys :=
  let out := s.policies.foldl policyStep (s.state, [])
  { s with state := out.1, policies := out.2 }

/-- `queue_work(wake_info->wq, &boost_work)`: marks the immediate
boost work pending (a no-op if it already is). -/
def queue_work_boost (s : Sys) : Sys :=
  { s with boost_pending := true }

/-- `queue_delayed_work(w->wq, &w->unboost_work, delay)`: arms the
delayed unboost work to fire `delay` time-units after `now`.  If the
work is already pending, `queue_delayed_work` returns false without
touching the existing timer, so the call is a no-op. -/
def queue_delayed_work_unboost (s : Sys) (now delay : Nat) : Sys :=
  match s.unboost_deadline with
  | some _ => s
  | none => { s with unboost_deadline := some (now + delay) }

/-- `wake_boost`: the boost task.  Sets the state to `BOOST`, forces a
policy re-evaluation of all online CPUs, then schedules the delayed
unboost using the value `wake_boost_time` holds at this moment. -/
def wake_boost (now : Nat) (s : Sys) : Sys :=
  let s1 := update_online_cpu_policy { s with state := BOOST }
  queue_delayed_work_unboost s1 now s1.wake_boost_time

/-- `wake_unboost`: the delayed unboost task.  Sets the state to
`UNBOOST` and forces a policy re-evaluation of all online CPUs. -/
def wake_unboost (s : Sys) : Sys :=
  update_online_cpu_policy { s with state := UNBOOST }

/-- Kernel `isspace`: space, `\t`, `\n`, vertical tab, form feed,
`\r`. -/
def isspace (c : Char) : Bool :=
  c = ' ' || c = '\t' || c = '\n' ||
    c = Char.ofNat 11 || c = Char.ofNat 12 || c = '\r'

/-- `skip_spaces` from the kernel's `vsscanf`: drop leading
whitespace. -/
def skip_spaces : List Char → List Char
  | [] => []
  | c :: cs => if isspace c then skip_spaces cs else c :: cs

/-- `simple_strtoul` digit loop: accumulate the maximal leading run of
decimal digits into a value (the kernel accumulates with machine-word
wraparound; the truncation is applied once at the use site). -/
def digitsVal : List Char → Nat → Nat
  | [], acc => acc
  | c :: cs, acc =>
      if c.isDigit then digitsVal cs (acc * 10 + (c.toNat - 48)) else acc

/-- `sscanf(buf, "%u\n", &val)` as implemented by the kernel's
`vsscanf`: skip leading whitespace; the conversion fails (0
conversions, so the driver sees `!= 1`) unless the next character is a
decimal digit; otherwise the maximal digit run is converted and the
result truncated to `unsigned int` (modulo `2^32`; wrapping modulo the
wider machine word first makes no difference).  Characters after the
digit run do not affect success. -/
def sscanf_u (buf : List Char) : Option Nat :=
  match skip_spaces buf with
  | [] => none
  | c :: cs =>
      if c.isDigit then some (digitsVal (c :: cs) 0 % 2 ^ 32) else none

/-- Result of `set_wake_boost`: the updated system and the `int`
return value (`0` or `-EINVAL`). -/
structure SetResult where
  sys : Sys
  ret : Int
deriving DecidableEq, Repr

/-- `set_wake_boost`: the `wake_boost` module-parameter setter.  A
failed parse returns `-EINVAL` with nothing mutated; otherwise the
parsed value is stored in `wake_boost_time` and the boost work is
queued for immediate execution. -/
def set_wake_boost (buf : List Char) (s : Sys) : SetResult :=
  match sscanf_u buf with
  | none => ⟨s, -EINVAL⟩
  | some val => ⟨queue_work_boost { s with wake_boost_time := val }, 0⟩

/-- Result of `fb_notifier_callback`: the updated system and the
notifier return value. -/
structure FbResult where
  sys : Sys
  ret : Nat
deriving DecidableEq, Repr

/-- `fb_notifier_callback`: the framebuffer notifier.  Only
`FB_EARLY_EVENT_BLANK` is handled.  On `FB_BLANK_UNBLANK` (display
active) it sets `wake_boost_time` to `FB_BOOST_MS` and queues the
boost work; on any other blank level (display inactive),
`cancel_delayed_work_sync` cancels the delayed unboost iff it is
pending, and only then is it requeued with zero delay. -/
def fb_notifier_callback (now : Nat) (action : Nat) (blank : Int)
    (s : Sys) : FbResult :=
  if action ≠ FB_EARLY_EVENT_BLANK then
    ⟨s, NOTIFY_OK⟩
  else if blank = FB_BLANK_UNBLANK then
    ⟨queue_work_boost { s with wake_boost_time := FB_BOOST_MS }, NOTIFY_OK⟩
  else
    match s.unboost_deadline with
    | some _ =>
        ⟨queue_delayed_work_unboost { s with unboost_deadline := none }
          now 0, NOTIFY_OK⟩
    | none => ⟨s, NOTIFY_OK⟩

/-- An observable step of the system: an external framebuffer event, a
write to the `wake_boost` module parameter, the workqueue running the
pending boost work, or the delayed-work timer firing. -/
inductive Step where
  | fbEvent (action : Nat) (blank : Int)
  | setParam (buf : List Char)
  | runBoost
  | runUnboost
deriving DecidableEq, Repr

/-- One step at absolute time `now`.  The workqueue runs the boost
work only if it is pending, and runs the unboost work only once its
deadline has been reached. -/
def exec (now : Nat) (st : Step) (s : Sys) : Sys :=
  match st with
  | .fbEvent action blank => (fb_notifier_callback now action blank s).sys
  | .setParam buf => (set_wake_boost buf s).sys
  | .runBoost =>
      if s.boost_pending then
        wake_boost now { s with boost_pending := false }
      else s
  | .runUnboost =>
      match s.unboost_deadline with
      | some d =>
          if d ≤ now then wake_unboost { s with unboost_deadline := none }
          else s
      | none => s

/-- Run a timed trace (a list of time-stamped steps, earliest
first). -/
def runTrace (tr : List (Nat × Step)) (s : Sys) : Sys :=
  tr.foldl (fun s ts => exec ts.1 ts.2 s) s

/-- A sample single-CPU system used for concrete scenarios: hardware
range 300–2000, user bounds equal to the hardware range, duration at
the 2000 default, nothing queued. -/
def sys0 : Sys :=
  { state := NO_BOOST
    wake_boost_time := 2000
    policies := [⟨300, 2000, 300, 2000, 300, 2000⟩]
    boost_pending := false
    unboost_deadline := none }

/-- The spec's reconfiguration scenario, run on the code: display
active at t=0, boost task runs at t=0 (arming the unboost for t=2000),
the duration is set to 5000 at t=500, and the boost task triggered by
the setter runs at t=500. -/
def c3_mid : Sys :=
  runTrace
    [(0, .fbEvent FB_EARLY_EVENT_BLANK FB_BLANK_UNBLANK),
     (0, .runBoost),
     (500, .setParam ("5000".toList)),
     (500, .runBoost)] sys0

/-- The wake scenario: display active at `t0`, then the queued boost
task runs at `t0`. -/
def wakeAt (t0 : Nat) (s : Sys) : Sys :=
  exec t0 .runBoost
    (exec t0 (.fbEvent FB_EARLY_EVENT_BLANK FB_BLANK_UNBLANK) s)

/-- The early-release scenario after `wakeAt`: display inactive at
`t1` (blank level `blank`). -/
def sleepAt (t0 t1 : Nat) (blank : Int) (s : Sys) : Sys :=
  exec t1 (.fbEvent FB_EARLY_EVENT_BLANK blank) (wakeAt t0 s)

/-- The early-release scenario after `sleepAt`: the immediately
resubmitted unboost task runs at `t1`. -/
def releasedAt (t0 t1 : Nat) (blank : Int) (s : Sys) : Sys :=
  exec t1 .runUnboost (sleepAt t0 t1 blank s)

/-- Mid-boost reconfiguration: a parameter write at time `t` followed
by the boost task it queues. -/
def reconfigAt (t : Nat) (buf : List Char) (s : Sys) : Sys :=
  exec t .runBoost (exec t (.setParam buf) s)

end CpuWakeBoost

namespace CpuWakeBoost

open BoostState

/-- On a `CPUFREQ_ADJUST` invocation in state `BOOST`, the global
state is left at `BOOST`. -/
theorem cpufreq_update_policy_boost_fst (p : Policy) :
    (cpufreq_update_policy BOOST p).1 = BOOST := rfl

/-- Threading the per-CPU re-evaluation loop from state `BOOST` keeps
the state at `BOOST` and adjusts every policy in order. -/
theorem foldl_policyStep_boost (ps : List Policy) (acc : List Policy) :
    ps.foldl policyStep (BOOST, acc) =
      (BOOST, acc ++ ps.map fun p => (cpufreq_update_policy BOOST p).2) := by
  induction ps generalizing acc with
  | nil => simp
  | cons p ps ih =>
      have hstep : policyStep (BOOST, acc) p =
          (BOOST, acc ++ [(cpufreq_update_policy BOOST p).2]) := by
        simp [policyStep, cpufreq_update_policy_boost_fst]
      rw [List.foldl_cons, hstep, ih]
      simp

/-- The re-evaluation callbacks never move the state to `BOOST` on
their own. -/
theorem cpufreq_update_policy_fst_ne_boost (st : BoostState) (p : Policy)
    (h : st ≠ BOOST) : (cpufreq_update_policy st p).1 ≠ BOOST := by
  cases st <;> simp_all [cpufreq_update_policy, do_cpu_boost, CPUFREQ_ADJUST]

/-- Threading the per-CPU re-evaluation loop from a non-`BOOST` state
never reaches `BOOST`. -/
theorem foldl_policyStep_ne_boost (ps : List Policy) (st : BoostState)
    (acc : List Policy) (h : st ≠ BOOST) :
    (ps.foldl policyStep (st, acc)).1 ≠ BOOST := by
  induction ps generalizing st acc with
  | nil => simpa
  | cons p ps ih =>
      rw [List.foldl_cons]
      exact ih _ _ (cpufreq_update_policy_fst_ne_boost st p h)

/-- `wake_boost` when no unboost is pending: state `BOOST`, all online
policies re-adjusted, and the unboost armed `wake_boost_time`
time-units from now. -/
theorem wake_boost_eq (now : Nat) (s : Sys)
    (h : s.unboost_deadline = none) :
    wake_boost now s =
      { s with state := BOOST
               policies :=
                 s.policies.map fun p => (cpufreq_update_policy BOOST p).2
               unboost_deadline := some (now + s.wake_boost_time) } := by
  unfold wake_boost update_online_cpu_policy
  rw [foldl_policyStep_boost]
  simp [queue_delayed_work_unboost, h]

/-- `wake_boost` while an unboost is already pending: the
`queue_delayed_work` call is a no-op, so the existing deadline
survives. -/
theorem wake_boost_pending_eq (now : Nat) (s : Sys) (d : Nat)
    (h : s.unboost_deadline = some d) :
    wake_boost now s =
      { s with state := BOOST
               policies :=
                 s.policies.map fun p => (cpufreq_update_policy BOOST p).2 } := by
  unfold wake_boost update_online_cpu_policy
  rw [foldl_policyStep_boost]
  simp [queue_delayed_work_unboost, h]

/-- After the unboost task runs, the state is never `BOOST`. -/
theorem wake_unboost_state_ne_boost (s : Sys) :
    (wake_unboost s).state ≠ BOOST := by
  unfold wake_unboost update_online_cpu_policy
  exact foldl_policyStep_ne_boost _ _ _ (by simp)

/-- The unboost task does not touch the delayed-work timer. -/
theorem wake_unboost_deadline (s : Sys) :
    (wake_unboost s).unboost_deadline = s.unboost_deadline := rfl

/-- The workqueue runs a pending boost work by clearing the pending
bit and executing `wake_boost`. -/
theorem exec_runBoost (now : Nat) (s : Sys) (h : s.boost_pending = true) :
    exec now .runBoost s = wake_boost now { s with boost_pending := false } := by
  simp [exec, h]

/-- The delayed-work timer fires once its deadline has been reached,
executing `wake_unboost`. -/
theorem exec_runUnboost_due (now d : Nat) (s : Sys)
    (h : s.unboost_deadline = some d) (hle : d ≤ now) :
    exec now .runUnboost s =
      wake_unboost { s with unboost_deadline := none } := by
  simp [exec, h, hle]

/-- Before its deadline, the delayed-work timer does not fire. -/
theorem exec_runUnboost_early (now d : Nat) (s : Sys)
    (h : s.unboost_deadline = some d) (hlt : now < d) :
    exec now .runUnboost s = s := by
  simp [exec, h, Nat.not_le.mpr hlt]

/-- C1: For every invocation of the bounds-adjustment callback (a
`CPUFREQ_ADJUST` notification) while the state is `BOOST`, the callback
sets `policy->min` to the core's hardware maximum `cpuinfo.max_freq`;
if the resulting `policy->max` is below that minimum it is raised to
equal it, otherwise it is left alone; and the state remains `BOOST`. -/
theorem C1_boosted_callback (p : Policy) :
    (do_cpu_boost BOOST CPUFREQ_ADJUST p).policy.min = p.cpuinfo_max ∧
    (do_cpu_boost BOOST CPUFREQ_ADJUST p).policy.max =
      (if p.max < p.cpuinfo_max then p.cpuinfo_max else p.max) ∧
    (do_cpu_boost BOOST CPUFREQ_ADJUST p).state = BOOST := by
  by_cases hc : p.max < p.cpuinfo_max <;>
    simp [do_cpu_boost, CPUFREQ_ADJUST, hc]

/-- C9: the bounds-adjustment callback is idempotent within a fixed
state: in state `NO_BOOST` it returns the bounds unchanged, and for any
fixed state applying it twice yields the same bounds as applying it
once. -/
theorem C9_adjust_idempotent (st : BoostState) (p : Policy) :
    adjustBounds NO_BOOST p = p ∧
    adjustBounds st (adjustBounds st p) = adjustBounds st p := by
  constructor
  · rfl
  · cases st
    · rfl
    · rfl
    · by_cases hc : p.max < p.cpuinfo_max <;>
        simp [adjustBounds, do_cpu_boost, CPUFREQ_ADJUST, hc]

/-- C10: for every notifier action other than `CPUFREQ_ADJUST`, the
callback returns `NOTIFY_OK` and leaves both the policy and the boost
state unchanged — in particular an `UNBOOST` (Released) state is not
consumed by non-adjust invocations. -/
theorem C10_non_adjust_frame (st : BoostState) (action : Nat) (p : Policy)
    (h : action ≠ CPUFREQ_ADJUST) :
    do_cpu_boost st action p = ⟨st, p, NOTIFY_OK⟩ := by
  simp [do_cpu_boost, h]

/-- Witness for C10 at a concrete non-adjust action (`CPUFREQ_NOTIFY`)
in the `UNBOOST` state. -/
theorem C10_non_adjust_frame_witness :
    do_cpu_boost UNBOOST CPUFREQ_NOTIFY
        ⟨300, 2000, 300, 2000, 300, 2000⟩ =
      ⟨UNBOOST, ⟨300, 2000, 300, 2000, 300, 2000⟩, NOTIFY_OK⟩ :=
  C10_non_adjust_frame UNBOOST CPUFREQ_NOTIFY
    ⟨300, 2000, 300, 2000, 300, 2000⟩ (by decide)

/-- C2: the boost task is exactly the sequence: set state to `BOOST`,
force a re-evaluation across all online CPUs, then schedule the
delayed unboost with the `wake_boost_time` value the much-later
execution moment holds (first conjunct, the task's structure).  When
the task runs with the boost work pending and no unboost pending, the
resulting system has state `BOOST`, every online policy re-adjusted by
the callback, and the unboost armed at `now + wake_boost_time` with
the duration read from the state at execution time (second
conjunct). -/
theorem C2_boost_task (now : Nat) (s : Sys)
    (hp : s.boost_pending = true) (hu : s.unboost_deadline = none) :
    (∀ s' : Sys, wake_boost now s' =
      queue_delayed_work_unboost
        (update_online_cpu_policy { s' with state := BOOST }) now
        (update_online_cpu_policy { s' with state := BOOST }).wake_boost_time) ∧
    exec now .runBoost s =
      { s with boost_pending := false
               state := BOOST
               policies :=
                 s.policies.map fun p => (cpufreq_update_policy BOOST p).2
               unboost_deadline := some (now + s.wake_boost_time) } := by
  constructor
  · intro s'; rfl
  · show (if s.boost_pending then
        wake_boost now { s with boost_pending := false } else s) = _
    rw [hp, if_pos rfl,
      wake_boost_eq now { s with boost_pending := false } hu]

/-- Witness for C2 on the sample system with the boost work pending. -/
theorem C2_boost_task_witness :
    exec 0 .runBoost { sys0 with boost_pending := true } =
      { sys0 with boost_pending := false
                  state := BOOST
                  policies := [⟨2000, 2000, 300, 2000, 300, 2000⟩]
                  unboost_deadline := some 2000 } :=
  (C2_boost_task 0 { sys0 with boost_pending := true } rfl rfl).2

/-- C6: the unboost task is exactly: set state to `UNBOOST` and force
a re-evaluation (first conjunct); the task's own statements do not
produce `NO_BOOST` — with no online CPU to run the callback, the state
is still `UNBOOST` afterwards (second conjunct); the `UNBOOST` to
`NO_BOOST` transition happens in the bounds-adjustment callback, which
sets the minimum bound to the hardware minimum and then the state to
`NO_BOOST` (third and fourth conjuncts). -/
theorem C6_unboost_task (s : Sys) (p : Policy) :
    wake_unboost s = update_online_cpu_policy { s with state := UNBOOST } ∧
    (s.policies = [] → (wake_unboost s).state = UNBOOST) ∧
    (do_cpu_boost UNBOOST CPUFREQ_ADJUST p).policy.min = p.cpuinfo_min ∧
    (do_cpu_boost UNBOOST CPUFREQ_ADJUST p).state = NO_BOOST := by
  refine ⟨rfl, ?_, rfl, rfl⟩
  intro h
  simp [wake_unboost, update_online_cpu_policy, h]

/-- Witness for C6 on a system with no online CPUs and a concrete
policy. -/
theorem C6_unboost_task_witness :
    (wake_unboost { sys0 with policies := [] }).state = UNBOOST ∧
    (do_cpu_boost UNBOOST CPUFREQ_ADJUST
        ⟨2000, 2000, 300, 2000, 300, 2000⟩).policy.min = 300 :=
  ⟨(C6_unboost_task { sys0 with policies := [] }
      ⟨2000, 2000, 300, 2000, 300, 2000⟩).2.1 rfl,
   (C6_unboost_task { sys0 with policies := [] }
      ⟨2000, 2000, 300, 2000, 300, 2000⟩).2.2.1⟩

/-- C4: a parameter write whose buffer fails the `%u` parse returns
`-EINVAL` and mutates nothing; a write that parses to `v` stores `v`
in `wake_boost_time`, queues the boost work, and changes nothing
else. -/
theorem C4_set_wake_boost (buf : List Char) (s : Sys) :
    (sscanf_u buf = none → set_wake_boost buf s = ⟨s, -EINVAL⟩) ∧
    (∀ v, sscanf_u buf = some v →
      set_wake_boost buf s =
        ⟨{ s with wake_boost_time := v, boost_pending := true }, 0⟩) := by
  constructor
  · intro h; simp [set_wake_boost, h]
  · intro v h; simp [set_wake_boost, h, queue_work_boost]

/-- Witness for C4: a non-numeric buffer is rejected without
mutation, a numeric one is stored and arms the boost work. -/
theorem C4_set_wake_boost_witness :
    set_wake_boost "abc".toList sys0 = ⟨sys0, -EINVAL⟩ ∧
    set_wake_boost "123".toList sys0 =
      ⟨{ sys0 with wake_boost_time := 123, boost_pending := true }, 0⟩ :=
  ⟨(C4_set_wake_boost "abc".toList sys0).1 (by decide),
   (C4_set_wake_boost "123".toList sys0).2 123 (by decide)⟩

/-- C7: every display-active event (`FB_EARLY_EVENT_BLANK` with
`FB_BLANK_UNBLANK`) overwrites the armed duration with the
`FB_BOOST_MS` constant, which is 2000, queues the boost work, and
changes nothing else. -/
theorem C7_display_active (now : Nat) (s : Sys) :
    fb_notifier_callback now FB_EARLY_EVENT_BLANK FB_BLANK_UNBLANK s =
      ⟨{ s with wake_boost_time := FB_BOOST_MS, boost_pending := true },
        NOTIFY_OK⟩ ∧
    FB_BOOST_MS = 2000 := by
  exact ⟨by simp [fb_notifier_callback, queue_work_boost], rfl⟩

/-- C8: a display-inactive event (`FB_EARLY_EVENT_BLANK` with a blank
level other than `FB_BLANK_UNBLANK`) cancels a pending delayed unboost
and resubmits it to fire immediately; when none is pending it changes
nothing at all. -/
theorem C8_display_inactive (now : Nat) (blank : Int) (s : Sys) (d : Nat)
    (hb : blank ≠ FB_BLANK_UNBLANK) :
    (s.unboost_deadline = some d →
      fb_notifier_callback now FB_EARLY_EVENT_BLANK blank s =
        ⟨{ s with unboost_deadline := some now }, NOTIFY_OK⟩) ∧
    (s.unboost_deadline = none →
      fb_notifier_callback now FB_EARLY_EVENT_BLANK blank s =
        ⟨s, NOTIFY_OK⟩) := by
  constructor <;> intro h <;>
    simp [fb_notifier_callback, hb, h, queue_delayed_work_unboost]

/-- Witness for C8 at blank level 4 (`FB_BLANK_POWERDOWN`), with and
without a pending unboost. -/
theorem C8_display_inactive_witness :
    fb_notifier_callback 700 FB_EARLY_EVENT_BLANK 4
        { sys0 with state := BOOST, unboost_deadline := some 2000 } =
      ⟨{ sys0 with state := BOOST, unboost_deadline := some 700 },
        NOTIFY_OK⟩ ∧
    fb_notifier_callback 700 FB_EARLY_EVENT_BLANK 4 sys0 =
      ⟨sys0, NOTIFY_OK⟩ :=
  ⟨(C8_display_inactive 700 4
      { sys0 with state := BOOST, unboost_deadline := some 2000 } 2000
      (by decide)).1 rfl,
   (C8_display_inactive 700 4 sys0 2000 (by decide)).2 rfl⟩

/-- C5: display active at `t0` (arming the fixed 2000-unit window),
boost task runs at `t0`, display inactive at `t1` before the window
elapses: the pending timer is cancelled and resubmitted to fire at
`t1` itself, and once it runs at `t1` the timer is gone and the state
is no longer `BOOST` — the override does not persist past the inactive
signal. -/
theorem C5_early_release (t0 t1 : Nat) (blank : Int) (s : Sys)
    (hu : s.unboost_deadline = none)
    (hblank : blank ≠ FB_BLANK_UNBLANK)
    (h01 : t0 ≤ t1) (h1 : t1 < t0 + FB_BOOST_MS) :
    (wakeAt t0 s).state = BOOST ∧
    (wakeAt t0 s).unboost_deadline = some (t0 + FB_BOOST_MS) ∧
    (sleepAt t0 t1 blank s).unboost_deadline = some t1 ∧
    (releasedAt t0 t1 blank s).unboost_deadline = none ∧
    (releasedAt t0 t1 blank s).state ≠ BOOST := by
  have hs1 : exec t0 (.fbEvent FB_EARLY_EVENT_BLANK FB_BLANK_UNBLANK) s =
      { s with wake_boost_time := FB_BOOST_MS, boost_pending := true } := by
    simp [exec, fb_notifier_callback, queue_work_boost]
  have hs2 : wakeAt t0 s =
      { s with wake_boost_time := FB_BOOST_MS
               boost_pending := false
               state := BOOST
               policies :=
                 s.policies.map fun p => (cpufreq_update_policy BOOST p).2
               unboost_deadline := some (t0 + FB_BOOST_MS) } := by
    rw [wakeAt, hs1, exec_runBoost t0 _ rfl,
      wake_boost_eq t0
        { s with wake_boost_time := FB_BOOST_MS, boost_pending := false } hu]
  have hs3 : sleepAt t0 t1 blank s =
      { s with wake_boost_time := FB_BOOST_MS
               boost_pending := false
               state := BOOST
               policies :=
                 s.policies.map fun p => (cpufreq_update_policy BOOST p).2
               unboost_deadline := some t1 } := by
    rw [sleepAt, hs2]
    simp [exec, fb_notifier_callback, hblank, queue_delayed_work_unboost]
  have hs4 : releasedAt t0 t1 blank s =
      wake_unboost
        { s with wake_boost_time := FB_BOOST_MS
                 boost_pending := false
                 state := BOOST
                 policies :=
                   s.policies.map fun p => (cpufreq_update_policy BOOST p).2
                 unboost_deadline := none } := by
    rw [releasedAt, hs3, exec_runUnboost_due t1 t1 _ rfl (le_refl t1)]
  refine ⟨by rw [hs2], by rw [hs2], by rw [hs3], ?_, ?_⟩
  · rw [hs4, wake_unboost_deadline]
  · rw [hs4]
    exact wake_unboost_state_ne_boost _

/-- Witness for C5: wake at t=0, sleep at t=500 (blank level 4), on
the sample system. -/
theorem C5_early_release_witness :
    (wakeAt 0 sys0).state = BOOST ∧
    (wakeAt 0 sys0).unboost_deadline = some 2000 ∧
    (sleepAt 0 500 4 sys0).unboost_deadline = some 500 ∧
    (releasedAt 0 500 4 sys0).unboost_deadline = none ∧
    (releasedAt 0 500 4 sys0).state ≠ BOOST :=
  C5_early_release 0 500 4 sys0 rfl (by decide) (by decide) (by decide)

/-- C3, counterexample to the claim as stated: in the spec's own
scenario (default 2000-unit boost armed at t=0, duration set to 5000
at t=500, the setter's boost task re-running at t=500), the already
scheduled unboost still fires at t=2000 — but the boost cycle started
by the setter does *not* expire 5000 units after its own arm time:
when the unboost fires at t=2000 the boost is fully over (state back
at `NO_BOOST` once the callback ran, nothing scheduled), and the
unboost task has nothing to do at t=5500. -/
theorem C3_counterexample :
    c3_mid.wake_boost_time = 5000 ∧
    c3_mid.state = BOOST ∧
    c3_mid.unboost_deadline = some 2000 ∧
    (exec 2000 .runUnboost c3_mid).state = NO_BOOST ∧
    (exec 2000 .runUnboost c3_mid).unboost_deadline = none ∧
    exec 5500 .runUnboost (exec 2000 .runUnboost c3_mid) =
      exec 2000 .runUnboost c3_mid := by decide

/-- C3 as amended: setting the duration to a parsed value `v` while an
unboost armed for time `d` is pending stores `v` and re-runs the boost
task, but the `queue_delayed_work` call inside the task is a no-op —
the pending deadline `d` is neither shrunk (the timer does not fire
before `d`) nor extended, so the boost cycle restarted by the setter
ends at the original deadline rather than after the new duration;
only a boost armed with no unboost pending uses the new value. -/
theorem C3_amended_reconfig (t : Nat) (s : Sys) (buf : List Char)
    (v d : Nat) (hparse : sscanf_u buf = some v)
    (hd : s.unboost_deadline = some d) :
    (exec t (.setParam buf) s).wake_boost_time = v ∧
    (reconfigAt t buf s).unboost_deadline = some d ∧
    (reconfigAt t buf s).state = BOOST ∧
    (∀ t2, t2 < d → exec t2 .runUnboost (reconfigAt t buf s) =
      reconfigAt t buf s) := by
  have hs1 : exec t (.setParam buf) s =
      { s with wake_boost_time := v, boost_pending := true } := by
    simp [exec, set_wake_boost, hparse, queue_work_boost]
  have hs2 : reconfigAt t buf s =
      { s with wake_boost_time := v
               boost_pending := false
               state := BOOST
               policies :=
                 s.policies.map fun p => (cpufreq_update_policy BOOST p).2 } := by
    rw [reconfigAt, hs1, exec_runBoost t _ rfl,
      wake_boost_pending_eq t
        { s with wake_boost_time := v, boost_pending := false } d hd]
  refine ⟨by rw [hs1], by rw [hs2]; exact hd, by rw [hs2], ?_⟩
  intro t2 ht2
  rw [hs2]
  exact exec_runUnboost_early t2 d _ hd ht2

/-- Witness for C3's amended theorem: the spec scenario's numbers
(duration 5000 written at t=500 while an unboost armed for t=2000 is
pending). -/
theorem C3_amended_reconfig_witness :
    (exec 500 (.setParam "5000".toList)
      { sys0 with state := BOOST, unboost_deadline := some 2000 }).wake_boost_time
      = 5000 ∧
    (reconfigAt 500 "5000".toList
      { sys0 with state := BOOST, unboost_deadline := some 2000 }).unboost_deadline
      = some 2000 ∧
    (reconfigAt 500 "5000".toList
      { sys0 with state := BOOST, unboost_deadline := some 2000 }).state
      = BOOST ∧
    (∀ t2, t2 < 2000 →
      exec t2 .runUnboost (reconfigAt 500 "5000".toList
        { sys0 with state := BOOST, unboost_deadline := some 2000 }) =
      reconfigAt 500 "5000".toList
        { sys0 with state := BOOST, unboost_deadline := some 2000 }) :=
  C3_amended_reconfig 500
    { sys0 with state := BOOST, unboost_deadline := some 2000 }
    "5000".toList 5000 2000 (by decide) rfl

end CpuWakeBoost
